import Mathlib

/-!
Verification of the LSTM model-retraining pipeline
(`model_retraining_pipeline.py`, `ai_real_lstm.py`).

Shallow embedding conventions:
* Python floats are modelled as rationals (`ℚ`); the pipeline performs no
  operation whose truth on rationals differs from floats at the inputs
  considered, except where noted in comments.
* Fallible code is modelled with `Option`: `none` models a caught failure
  (an exception converted to `None`/`False` by a `try/except`), and at the
  orchestration level an uncaught exception is modelled by a propagating
  `none` result of the whole call.
* File-system state is explicit: a `PipelineState` record carries the three
  per-symbol production files, the list of backup directories, and a counter
  of backup-pruning runs.
-/

namespace Wintrades

/-! ## Metrics and configuration (`model_config.json`, `*_metrics.json`) -/

/-- The two fields of a stored metrics record read by `compare_models`
(`val_loss`, `val_accuracy`); the other fields of the JSON record
(training date, sample counts, ...) play no role in any verified property. -/
structure Metrics where
  val_loss : ℚ
  val_accuracy : ℚ
deriving DecidableEq, Repr

/-- The configuration keys consulted by the verified code paths. -/
structure Config where
  symbols : List String
  minimum_accuracy : ℚ
  validation_threshold : ℚ
  backup_retention_days : ℕ
deriving DecidableEq, Repr

/-! ## Model comparator (`ModelRetrainingPipeline.compare_models`) -/

/-- `compare_models(old_metrics, new_metrics)`:
* no incumbent → accept;
* candidate accuracy below `minimum_accuracy` → reject;
* relative validation-loss increase above `validation_threshold` → reject;
* otherwise accept (the source's final `if/else` returns `True` on both
  branches, which we collapse).

`(new_val_loss - old_val_loss) / old_val_loss` is a Python float division:
it raises `ZeroDivisionError` when `old_val_loss = 0`, which we model as
`none` (an uncaught exception). -/
def compare_models (old_metrics : Option Metrics) (new_metrics : Metrics)
    (config : Config) : Option Bool :=
  match old_metrics with
  | none => some true
  | some o =>
    if new_metrics.val_accuracy < config.minimum_accuracy then some false
    else if o.val_loss = 0 then none
    else
      let loss_increase := (new_metrics.val_loss - o.val_loss) / o.val_loss
      if loss_increase > config.validation_threshold then some false
      else some true

/-! ## Sequence builder (`create_sequences`, two variants) -/

namespace Seq

/-- `ModelRetrainingPipeline.create_sequences(data, target, sequence_length)`:
`for i in range(sequence_length, len(data)): X.append(data[i-sequence_length:i]);
y.append(target[i])`.  Regression labels: the raw target value at index `i`. -/
def create_sequences (data : List (List ℚ)) (target : List ℚ)
    (sequence_length : ℕ) : List (List (List ℚ)) × List ℚ :=
  ((List.range' sequence_length (data.length - sequence_length)).map
      (fun i => (data.drop (i - sequence_length)).take sequence_length),
   (List.range' sequence_length (data.length - sequence_length)).map
      (fun i => target.getD i 0))

/-- `RealLSTMModel.create_sequences`: same windows over the (scaled) feature
matrix, but binary classification labels
`1 if target_data[i] > target_data[i-1] else 0` computed on the unscaled
target series. The argument `data` stands for the scaled feature matrix and
`target` for the raw target series; the in-function scaling does not change
row counts or indices. -/
def create_sequences_lstm (data : List (List ℚ)) (target : List ℚ)
    (sequence_length : ℕ) : List (List (List ℚ)) × List ℕ :=
  ((List.range' sequence_length (data.length - sequence_length)).map
      (fun i => (data.drop (i - sequence_length)).take sequence_length),
   (List.range' sequence_length (data.length - sequence_length)).map
      (fun i => if target.getD (i - 1) 0 < target.getD i 0 then 1 else 0))

end Seq

/-! ## Directional accuracy (`calculate_directional_accuracy`) -/

namespace Acc

/-- `np.diff`: consecutive differences of a series. -/
def diffList (xs : List ℚ) : List ℚ :=
  (xs.zip xs.tail).map (fun p => p.2 - p.1)

/-- `calculate_directional_accuracy(y_true, y_pred)`:
`0.0` when `len(y_true) < 2`, otherwise
`np.mean((np.diff(y_true) > 0) == (np.diff(y_pred) > 0)) * 100`.
The mean of a boolean array is the count of `True` over the length.
(`y_pred.flatten()` is the identity in this list model; NumPy broadcasting of
unequal-length inputs is not modelled — the verified statements assume equal
lengths, which is how the function is called.) -/
def calculate_directional_accuracy (y_true y_pred : List ℚ) : ℚ :=
  if y_true.length < 2 then 0
  else
    let true_direction := (diffList y_true).map (fun d => decide (0 < d))
    let pred_direction := (diffList y_pred).map (fun d => decide (0 < d))
    let agree := List.zipWith (fun a b => a == b) true_direction pred_direction
    ((agree.countP id : ℚ) / agree.length) * 100

/-- The number of indices `i` at which the sign of the true step
`y_true[i+1] - y_true[i]` agrees with the sign of the predicted step, stated
directly over indices (the form used in the specification). -/
def agreeCount (y_true y_pred : List ℚ) : ℕ :=
  (List.range (y_true.length - 1)).countP
    (fun i => decide ((0 < y_true.getD (i+1) 0 - y_true.getD i 0) ↔
                      (0 < y_pred.getD (i+1) 0 - y_pred.getD i 0)))

end Acc

/-! ## Orchestration model (`retrain_symbol`, `run_full_pipeline`,
`backup_current_model`, `deploy_model`, `train_new_model`)

Opaque file contents (a saved model, a pickled scaler, raw downloaded data,
a preprocessed feature tensor) are modelled as natural-number tokens: the
verified properties only compare them for equality, never inspect them. -/

namespace Retrain

/-- A symbol (instrument ticker), e.g. `"BTC-USD"`. -/
abbrev Symbol := String

/-- The three per-symbol production files in `models_dir`:
`{symbol}_model.h5`, `{symbol}_metrics.json`, `{symbol}_scaler.pkl`.
`none` = the file does not exist. -/
structure ProdFiles where
  model : Option ℕ
  metrics : Option Metrics
  scaler : Option ℕ
deriving DecidableEq, Repr

/-- A timestamped backup directory and the copies it holds (a field is
`none` when the corresponding production file did not exist and so was not
copied). `createdAt` is the creation time in seconds. -/
structure BackupEntry where
  createdAt : ℤ
  model : Option ℕ
  metrics : Option Metrics
  scaler : Option ℕ
deriving DecidableEq, Repr

/-- Number of files a backup directory holds. -/
def BackupEntry.numFiles (b : BackupEntry) : ℕ :=
  (if b.model.isSome then 1 else 0) + (if b.metrics.isSome then 1 else 0) +
    (if b.scaler.isSome then 1 else 0)

/-- The file-system state the pipeline reads and writes: production files per
symbol, the backup directory, and a ghost counter of how many times backup
pruning (`cleanup_old_backups`) has run. -/
structure PipelineState where
  prod : Symbol → ProdFiles
  backups : List BackupEntry
  cleanupRuns : ℕ

/-- The external world of one run: downloaded data, training outcomes and
file-system faults.  A `none`/`false` models an exception raised by the
corresponding library call (and caught where the source catches it):
* `collect s = none` — data download/validation failed (`collect_fresh_data`
  catches and returns `None`);
* `preprocess s raw = none` — feature engineering raised
  (`preprocess_data` catches and returns `None`) before the scaler dump;
  on `some (features, scaler)` the new scaler has been written to the
  production path `{symbol}_scaler.pkl` as a side effect;
* `fitEval s features = none` — `model.fit`/evaluation raised (caught in
  `train_new_model`);
* `backupOk s = false` — a copy raised inside `backup_current_model`
  (caught there, returns `False`);
* `deployOk s = false` — a write raised inside `deploy_model` (caught
  there, returns `False`).  A failed deployment may leave partial files on
  disk; the model leaves the state unchanged, and no verified property
  reads production state after a failed deployment. -/
structure Env where
  collect : Symbol → Option ℕ
  preprocess : Symbol → ℕ → Option (ℕ × ℕ)
  fitEval : Symbol → ℕ → Option (ℕ × Metrics)
  backupOk : Symbol → Bool
  deployOk : Symbol → Bool

/-- A candidate artifact as returned by `train_new_model`:
`(model, model_metrics, scaler)`. -/
structure Artifact where
  model : ℕ
  metrics : Metrics
  scaler : ℕ
deriving DecidableEq, Repr

/-- Write the new scaler to `{symbol}_scaler.pkl` (the dump at the end of
`preprocess_data`). -/
def writeScaler (st : PipelineState) (s : Symbol) (sc : ℕ) : PipelineState :=
  { st with prod := fun s' => if s' = s then { st.prod s with scaler := some sc }
                              else st.prod s' }

/-- `train_new_model(symbol)`: collect, preprocess (with the scaler dump as
a side effect on success), create sequences (pure, no failure mode beyond
what `fitEval` covers), fit and evaluate.  Its Python return value has two
distinct failure shapes, which the first component mirrors:
* a **bare `None`** (`return None`) when data collection or preprocessing
  failed — modelled `none`; the caller's 3-tuple unpacking raises
  `TypeError` on this value;
* the **triple `None, None, None`** returned by the surrounding `except`
  when fitting/evaluation raised — modelled `some none`; this unpacks fine
  and the caller sees `new_model is None`;
* `model, model_metrics, scaler` on success — modelled `some (some art)`. -/
def train_new_model (env : Env) (s : Symbol) (st : PipelineState) :
    Option (Option Artifact) × PipelineState :=
  match env.collect s with
  | none => (none, st)
  | some raw =>
    match env.preprocess s raw with
    | none => (none, st)
    | some (features, scaler) =>
      let st1 := writeScaler st s scaler
      match env.fitEval s features with
      | none => (some none, st1)
      | some (model, metrics) => (some (some ⟨model, metrics, scaler⟩), st1)

/-- `backup_current_model(symbol)`: if `{symbol}_model.h5` does not exist,
return `True` without touching anything; otherwise create a timestamped
backup directory and copy into it each of the three production files that
exists. `env.backupOk` models an exception inside the copy loop. -/
def backup_current_model (env : Env) (now : ℤ) (s : Symbol)
    (st : PipelineState) : Bool × PipelineState :=
  let p := st.prod s
  match p.model with
  | none => (true, st)
  | some m =>
    if env.backupOk s then
      (true, { st with backups := ⟨now, some m, p.metrics, p.scaler⟩ :: st.backups })
    else (false, st)

/-- `deploy_model(symbol, model, metrics, scaler)`: write the three
production files; `env.deployOk` models a write failure (caught, `False`). -/
def deploy_model (env : Env) (s : Symbol) (art : Artifact)
    (st : PipelineState) : Bool × PipelineState :=
  if env.deployOk s then
    (true, { st with prod := fun s' => if s' = s then
               ⟨some art.model, some art.metrics, some art.scaler⟩
             else st.prod s' })
  else (false, st)

/-- `retrain_symbol(symbol)`: read the incumbent metrics file, unpack
`new_model, new_metrics, new_scaler = self.train_new_model(symbol)`, then
compare, back up, deploy.  `retrain_symbol` itself has no `try/except`, so
two exceptions escape uncaught (overall result `none`):
* unpacking the bare `None` that `train_new_model` returns on a data or
  preprocessing failure raises `TypeError: cannot unpack non-iterable
  NoneType object`;
* an exception escaping `compare_models` (modelled by
  `compare_models = none`).
The caught-exception triple (`some none`) unpacks to `new_model = None`
and yields the logged `False` outcome. -/
def retrain_symbol (env : Env) (config : Config) (now : ℤ) (s : Symbol)
    (st : PipelineState) : Option (Bool × PipelineState) :=
  let old_metrics := (st.prod s).metrics
  match train_new_model env s st with
  | (none, _) => none
  | (some none, st1) => some (false, st1)
  | (some (some art), st1) =>
    match compare_models old_metrics art.metrics config with
    | none => none
    | some false => some (false, st1)
    | some true =>
      match backup_current_model env now s st1 with
      | (false, st2) => some (false, st2)
      | (true, st2) =>
        let (ok, st3) := deploy_model env s art st2
        some (ok, st3)

/-- `cleanup_old_backups` at the orchestration level: prune backup
directories older than the retention window and bump the ghost run
counter.  (The name-parsing behaviour of pruning is verified separately on
the `Prune` model; here only "runs exactly once per pipeline run" and the
state frame matter.) -/
def cleanup_old_backups (config : Config) (now : ℤ) (st : PipelineState) :
    PipelineState :=
  { st with
    backups := st.backups.filter
      (fun b => !(b.createdAt < now - 86400 * config.backup_retention_days)),
    cleanupRuns := st.cleanupRuns + 1 }

/-- The per-symbol loop of `run_full_pipeline`:
`for symbol in self.config['symbols']: results[symbol] = self.retrain_symbol(symbol)`.
The `results` dict is modelled as the association list in insertion order
(faithful when the symbol list has no duplicates). An uncaught exception in
any iteration aborts the whole loop (`none`). -/
def runSymbols (env : Env) (config : Config) (now : ℤ) :
    List Symbol → PipelineState → Option (List (Symbol × Bool) × PipelineState)
  | [], st => some ([], st)
  | s :: rest, st =>
    match retrain_symbol env config now s st with
    | none => none
    | some (b, st1) =>
      match runSymbols env config now rest st1 with
      | none => none
      | some (res, st2) => some ((s, b) :: res, st2)

/-- The run report (`pipeline_report_*.json`): totals and the per-symbol
outcome mapping. -/
structure Report where
  total_symbols : ℕ
  successful_updates : ℕ
  results : List (Symbol × Bool)
deriving DecidableEq, Repr

/-- `run_full_pipeline()`: retrain every configured symbol, prune old
backups once, and report `{total, successful, results}`. -/
def run_full_pipeline (env : Env) (config : Config) (now : ℤ)
    (st : PipelineState) : Option (Report × PipelineState) :=
  match runSymbols env config now config.symbols st with
  | none => none
  | some (results, st1) =>
    let st2 := cleanup_old_backups config now st1
    some (⟨results.length, (results.filter (fun p => p.2)).length, results⟩, st2)

end Retrain

/-! ## Feature pipeline (`preprocess_data`, `calculate_rsi`)

Pandas `NaN` is modelled by `Option ℚ`: `none` is an undefined value, and
`df.dropna()` keeps exactly the rows whose columns are all `some`.
Division returns `none` when the divisor is `0`.  For `0/0` this is exactly
pandas' `NaN`; a nonzero numerator over `0` yields `±inf` in pandas (which
`dropna` would keep) — no verified statement evaluates the model at such an
input: all hypotheses and concrete inputs keep those divisors nonzero, and
the one undefined division actually exercised (`price_position` on a bar
with `High = Low`, which forces `Close = Low`) is a genuine `0/0`.
`rolling(window=w)` uses pandas' default `min_periods = w`: a window is
undefined until `w` values are available, and undefined when it covers an
undefined value.  The value of `rolling(w).std()` is recorded as the
(rational) sample variance of the window rather than its irrational square
root: the square root of a defined nonnegative value is defined, and no
verified property reads the numeric value of the volatility column, only
its definedness. -/

namespace Feat

/-- One OHLCV bar of the downloaded `MarketSeries`. -/
structure Bar where
  openP : ℚ
  high : ℚ
  low : ℚ
  close : ℚ
  volume : ℚ
deriving DecidableEq, Repr

instance : Inhabited Bar := ⟨⟨0, 0, 0, 0, 0⟩⟩

/-- Division with pandas `NaN` (= `none`) propagation; divisor `0` gives an
undefined value (see the namespace comment). -/
def optDiv (a b : Option ℚ) : Option ℚ :=
  match a, b with
  | some x, some y => if y = 0 then none else some (x / y)
  | _, _ => none

/-- Raw column access (row `r` of the dataframe). -/
def closeAt (bars : List Bar) (r : ℕ) : ℚ := (bars.getD r default).close

/-- Raw `Open` column. -/
def openAt (bars : List Bar) (r : ℕ) : ℚ := (bars.getD r default).openP

/-- Raw `High` column. -/
def highAt (bars : List Bar) (r : ℕ) : ℚ := (bars.getD r default).high

/-- Raw `Low` column. -/
def lowAt (bars : List Bar) (r : ℕ) : ℚ := (bars.getD r default).low

/-- Raw `Volume` column. -/
def volumeAt (bars : List Bar) (r : ℕ) : ℚ := (bars.getD r default).volume

/-- `rolling(window=w).mean()` of a totally-defined series `f`
(default `min_periods = w`: defined once `w` rows are available). -/
def rollingMean (f : ℕ → ℚ) (w : ℕ) (r : ℕ) : Option ℚ :=
  if w ≤ r + 1 then some ((∑ i ∈ Finset.range w, f (r + 1 - w + i)) / w)
  else none

/-- Whether the `w`-row window ending at row `r` of a partially-defined
series is fully defined. -/
def windowDefined (f : ℕ → Option ℚ) (w : ℕ) (r : ℕ) : Bool :=
  decide (w ≤ r + 1) && (List.range w).all (fun i => (f (r + 1 - w + i)).isSome)

/-- `rolling(window=w).std()` of a partially-defined series: defined exactly
when the window is; the recorded value is the sample variance (`ddof = 1`)
of the window — see the namespace comment on the omitted square root. -/
def rollingStd (f : ℕ → Option ℚ) (w : ℕ) (r : ℕ) : Option ℚ :=
  if windowDefined f w r then
    let vals := (List.range w).map (fun i => (f (r + 1 - w + i)).getD 0)
    let mean := vals.sum / w
    some (((vals.map (fun x => (x - mean) ^ 2)).sum) / (w - 1))
  else none

/-- `df['returns'] = df['Close'].pct_change()`: undefined at row 0. -/
def returnsAt (bars : List Bar) (r : ℕ) : Option ℚ :=
  if 1 ≤ r then
    if closeAt bars (r - 1) = 0 then none
    else some ((closeAt bars r - closeAt bars (r - 1)) / closeAt bars (r - 1))
  else none

/-- `df['volatility'] = df['returns'].rolling(window=20).std()`. -/
def volatilityAt (bars : List Bar) (r : ℕ) : Option ℚ :=
  rollingStd (returnsAt bars) 20 r

/-- `delta = prices.diff()`: undefined at row 0. -/
def deltaAt (bars : List Bar) (r : ℕ) : Option ℚ :=
  if 1 ≤ r then some (closeAt bars r - closeAt bars (r - 1)) else none

/-- `gain = delta.where(delta > 0, 0)`: `NaN > 0` is `False`, so row 0
becomes `0`, not `NaN` — the gain series is totally defined. -/
def gainAt (bars : List Bar) (r : ℕ) : ℚ :=
  match deltaAt bars r with
  | some d => if 0 < d then d else 0
  | none => 0

/-- `loss = (-delta).where(delta < 0 ↦ -delta, 0)` (written in the source as
`(-delta.where(delta < 0, 0)).rolling...` before averaging). -/
def lossAt (bars : List Bar) (r : ℕ) : ℚ :=
  match deltaAt bars r with
  | some d => if d < 0 then -d else 0
  | none => 0

/-- `gain.rolling(window=14).mean()`. -/
def gainMeanAt (bars : List Bar) (r : ℕ) : Option ℚ :=
  rollingMean (gainAt bars) 14 r

/-- `loss.rolling(window=14).mean()`. -/
def lossMeanAt (bars : List Bar) (r : ℕ) : Option ℚ :=
  rollingMean (lossAt bars) 14 r

/-- `calculate_rsi`: `rs = gain/loss; rsi = 100 - 100/(1+rs)`.
`gain/loss` is a pandas division: undefined when the loss mean is `0`
(`0/0`; a positive gain mean over `0` would be `+inf`, making the real rsi
`100` — hypotheses and concrete inputs below keep the loss mean nonzero, so
this case is never evaluated).  `1 + rs ≥ 1` whenever `rs` is defined here,
so the outer division cannot be by zero. -/
def rsiAt (bars : List Bar) (r : ℕ) : Option ℚ :=
  match gainMeanAt bars r, lossMeanAt bars r with
  | some g, some l => if l = 0 then none else some (100 - 100 / (1 + g / l))
  | _, _ => none

/-- `df['ma_20'] = df['Close'].rolling(window=20).mean()`. -/
def ma20At (bars : List Bar) (r : ℕ) : Option ℚ :=
  rollingMean (closeAt bars) 20 r

/-- `df['ma_50'] = df['Close'].rolling(window=50).mean()`. -/
def ma50At (bars : List Bar) (r : ℕ) : Option ℚ :=
  rollingMean (closeAt bars) 50 r

/-- `df['price_position'] = (Close - Low) / (High - Low)`. -/
def pricePositionAt (bars : List Bar) (r : ℕ) : Option ℚ :=
  optDiv (some (closeAt bars r - lowAt bars r))
         (some (highAt bars r - lowAt bars r))

/-- `df['volume_ma'] = df['Volume'].rolling(window=20).mean()`. -/
def volumeMaAt (bars : List Bar) (r : ℕ) : Option ℚ :=
  rollingMean (volumeAt bars) 20 r

/-- `df['volume_ratio'] = df['Volume'] / df['volume_ma']`. -/
def volumeRatioAt (bars : List Bar) (r : ℕ) : Option ℚ :=
  optDiv (some (volumeAt bars r)) (volumeMaAt bars r)

/-- `df['high_low_ratio'] = df['High'] / df['Low']`. -/
def highLowRatioAt (bars : List Bar) (r : ℕ) : Option ℚ :=
  optDiv (some (highAt bars r)) (some (lowAt bars r))

/-- `df['close_open_ratio'] = df['Close'] / df['Open']`. -/
def closeOpenRatioAt (bars : List Bar) (r : ℕ) : Option ℚ :=
  optDiv (some (closeAt bars r)) (some (openAt bars r))

/-- Row `r` survives `df.dropna()`: the five raw columns are always
defined; the ten engineered columns must all be defined. -/
def rowDefined (bars : List Bar) (r : ℕ) : Bool :=
  (returnsAt bars r).isSome && (volatilityAt bars r).isSome &&
  (rsiAt bars r).isSome && (ma20At bars r).isSome && (ma50At bars r).isSome &&
  (pricePositionAt bars r).isSome && (volumeMaAt bars r).isSome &&
  (volumeRatioAt bars r).isSome && (highLowRatioAt bars r).isSome &&
  (closeOpenRatioAt bars r).isSome

/-- The row indices surviving `dropna`, in order. -/
def keptRows (bars : List Bar) : List ℕ :=
  (List.range bars.length).filter (fun r => rowDefined bars r)

/-- The selected feature row (the 11 `feature_columns`, in source order)
at a surviving index. -/
def featureRow (bars : List Bar) (r : ℕ) : List ℚ :=
  [closeAt bars r, volumeAt bars r, highAt bars r, lowAt bars r,
   (returnsAt bars r).getD 0, (volatilityAt bars r).getD 0,
   (rsiAt bars r).getD 0, (pricePositionAt bars r).getD 0,
   (volumeRatioAt bars r).getD 0, (highLowRatioAt bars r).getD 0,
   (closeOpenRatioAt bars r).getD 0]

/-- `features_df`: the feature matrix after `dropna` and column selection. -/
def featuresMatrix (bars : List Bar) : List (List ℚ) :=
  (keptRows bars).map (fun r => featureRow bars r)

/-- `MinMaxScaler().fit_transform`: per column, `(x - min) / (max - min)`,
with sklearn's zero-range guard (a constant column divides by `1`). -/
def minMaxScale (mat : List (List ℚ)) : List (List ℚ) :=
  mat.map (fun row =>
    (List.range 11).map (fun j =>
      let col := mat.map (fun row' => row'.getD j 0)
      let mn := col.foldr min (col.headD 0)
      let mx := col.foldr max (col.headD 0)
      (row.getD j 0 - mn) / (if mx - mn = 0 then 1 else mx - mn)))

/-- `preprocess_data(data, symbol)` return value
`(scaled_features, df['Close'].values, scaler)`: the scaled feature matrix
and the close prices of the surviving rows (the persisted scaler itself is
covered by the orchestration model). -/
def preprocess_data (bars : List Bar) : List (List ℚ) × List ℚ :=
  (minMaxScale (featuresMatrix bars), (keptRows bars).map (closeAt bars))

end Feat

/-! ## Backup pruning (`cleanup_old_backups`), file-name level

`datetime.strptime(backup_folder.name[:8], '%Y%m%d')` is modelled after
CPython's implementation: `%Y%m%d` compiles to the regular expression
`(\d\d\d\d)(1[0-2]|0[1-9]|[1-9])(3[01]|[12]\d|0[1-9]|[1-9])`, matched from
the start of the string with ordered-alternative backtracking; `strptime`
then requires the match to consume the whole string, and the `datetime`
constructor validates the day against the month length (raising
`ValueError`, caught by the source's `except ValueError: pass`, when it
does not fit).  `\d` is modelled as an ASCII digit.  A `datetime` is mapped
to the time line as whole days since 1970-01-01 (proleptic Gregorian
calendar); `cutoff_date = datetime.now() - timedelta(days=retention)` and
the comparison `folder_date < cutoff_date` are exact arithmetic on seconds. -/

namespace Prune

/-- A directory entry of the backup directory: its name and whether it is a
directory (`backup_folder.is_dir()`; plain files are skipped). -/
structure Entry where
  name : String
  isDir : Bool
deriving DecidableEq, Repr

/-- Digit value of an ASCII digit character. -/
def digitVal (c : Char) : ℕ := c.toNat - 48

/-- `%Y`: exactly four digits. -/
def parseYear : List Char → Option (ℕ × List Char)
  | a :: b :: c :: d :: rest =>
    if a.isDigit ∧ b.isDigit ∧ c.isDigit ∧ d.isDigit then
      some (1000 * digitVal a + 100 * digitVal b + 10 * digitVal c + digitVal d,
            rest)
    else none
  | _ => none

/-- `%m` = `1[0-2]|0[1-9]|[1-9]`: the candidate matches in regex
alternative order. -/
def monthAlts : List Char → List (ℕ × List Char)
  | cs =>
    (match cs with
     | '1' :: c :: rest =>
       if '0' ≤ c ∧ c ≤ '2' then [(10 + digitVal c, rest)] else []
     | _ => []) ++
    (match cs with
     | '0' :: c :: rest =>
       if '1' ≤ c ∧ c ≤ '9' then [(digitVal c, rest)] else []
     | _ => []) ++
    (match cs with
     | c :: rest => if '1' ≤ c ∧ c ≤ '9' then [(digitVal c, rest)] else []
     | _ => [])

/-- `%d` = `3[01]|[12]\d|0[1-9]|[1-9]`: the candidate matches in regex
alternative order. -/
def dayAlts : List Char → List (ℕ × List Char)
  | cs =>
    (match cs with
     | '3' :: c :: rest =>
       if '0' ≤ c ∧ c ≤ '1' then [(30 + digitVal c, rest)] else []
     | _ => []) ++
    (match cs with
     | a :: c :: rest =>
       if ('1' ≤ a ∧ a ≤ '2') ∧ c.isDigit then
         [(10 * digitVal a + digitVal c, rest)]
       else []
     | _ => []) ++
    (match cs with
     | '0' :: c :: rest =>
       if '1' ≤ c ∧ c ≤ '9' then [(digitVal c, rest)] else []
     | _ => []) ++
    (match cs with
     | c :: rest => if '1' ≤ c ∧ c ≤ '9' then [(digitVal c, rest)] else []
     | _ => [])

/-- Match `%m%d` with backtracking: the first month alternative for which
some day alternative matches wins; within it the first matching day
alternative wins (the regex engine succeeds as soon as the concatenation
matches and never revisits a successful match). -/
def matchMonthDay (cs : List Char) : Option (ℕ × ℕ × List Char) :=
  (monthAlts cs).findSome? (fun mc =>
    (dayAlts mc.2).head?.map (fun dc => (mc.1, dc.1, dc.2)))

/-- Gregorian leap year. -/
def isLeap (y : ℕ) : Bool :=
  y % 4 = 0 && (y % 100 ≠ 0 || y % 400 = 0)

/-- Length of month `m` of year `y`. -/
def daysInMonth (y m : ℕ) : ℕ :=
  if m = 2 then (if isLeap y then 29 else 28)
  else if m = 4 ∨ m = 6 ∨ m = 9 ∨ m = 11 then 30
  else 31

/-- `datetime.strptime(s, '%Y%m%d')`: regex match of the whole string,
then the `datetime(year, month, day)` constructor's validation
(`MINYEAR = 1`; the day must exist in the month).  `none` models the
`ValueError` the source catches. -/
def parseYmd (s : String) : Option (ℕ × ℕ × ℕ) :=
  match parseYear s.toList with
  | none => none
  | some (y, rest) =>
    match matchMonthDay rest with
    | none => none
    | some (m, d, rest2) =>
      if rest2 = [] then
        if 1 ≤ y ∧ d ≤ daysInMonth y m then some (y, m, d) else none
      else none

/-- Days from 1970-01-01 of a (validated) proleptic-Gregorian civil date;
the standard era-based algorithm, in `ℕ` arithmetic (all intermediate
quantities are nonnegative for `y ≥ 1`, which the constructor guarantees). -/
def daysFromCivil (y m d : ℕ) : ℤ :=
  let yy := if m ≤ 2 then y - 1 else y
  let era := yy / 400
  let yoe := yy % 400
  let mp := (m + 9) % 12
  let doy := (153 * mp + 2) / 5 + (d - 1)
  let doe := yoe * 365 + yoe / 4 - yoe / 100 + doy
  (era * 146097 + doe : ℤ) - 719468

/-- `datetime(y, m, d)` (midnight) on the seconds time line. -/
def dateSeconds (ymd : ℕ × ℕ × ℕ) : ℤ :=
  86400 * daysFromCivil ymd.1 ymd.2.1 ymd.2.2

/-- The loop body's removal decision: a directory whose name's 8-character
prefix parses as a date before `cutoff = now - retention days` is removed
(`shutil.rmtree`); parse failures fall into `except ValueError: pass`. -/
def shouldRemove (now : ℤ) (retention : ℕ) (e : Entry) : Bool :=
  e.isDir &&
    match parseYmd (e.name.take 8) with
    | some ymd => decide (dateSeconds ymd < now - 86400 * (retention : ℤ))
    | none => false

/-- `cleanup_old_backups`: iterate over the backup directory, removing each
entry the loop body decides to remove; the resulting directory contents. -/
def cleanup_old_backups (now : ℤ) (retention : ℕ) :
    List Entry → List Entry
  | [] => []
  | e :: rest =>
    if shouldRemove now retention e then cleanup_old_backups now retention rest
    else e :: cleanup_old_backups now retention rest

end Prune

/-! ## Derived definitions and concrete run fixtures -/

namespace Retrain

/-- The candidate produced by `train_new_model`, as a pure function of the
environment (the state only receives the scaler side effect): the chained
collect → preprocess → fit/evaluate pipeline, `none` when any stage fails.
When collection and preprocessing succeed, `none` means exactly a caught
fitting failure (the `None, None, None` return). -/
def trainResult (env : Env) (s : Symbol) : Option Artifact :=
  (env.collect s).bind (fun raw =>
    (env.preprocess s raw).bind (fun p =>
      (env.fitEval s p.1).map (fun q => ⟨q.1, q.2, p.2⟩)))

/-- Every metrics record the trainer can produce has a nonzero validation
loss, so `compare_models` can never hit its division by zero on a deployed
candidate. -/
def GoodEnv (env : Env) : Prop :=
  ∀ s f m met, env.fitEval s f = some (m, met) → met.val_loss ≠ 0

/-- Every stored production metrics file has a nonzero validation loss. -/
def GoodState (st : PipelineState) : Prop :=
  ∀ s m, (st.prod s).metrics = some m → m.val_loss ≠ 0

end Retrain

/-- Run configuration used by the concrete runs below: three instruments,
`minimum_accuracy = 45`, `validation_threshold = 0.15`, 30-day retention. -/
def cfgW : Config := ⟨["A", "B", "C"], 45, 3/20, 30⟩

/-- A world where data collection fails for `"A"`, deployment fails for
`"C"`, and everything else succeeds with a candidate of validation loss
`0.01` and accuracy `55`. -/
def envW : Retrain.Env :=
  ⟨fun s => if s = "A" then none else some 0,
   fun _ raw => some (raw, 5),
   fun _ _ => some (0, ⟨1/100, 55⟩),
   fun _ => true,
   fun s => !(s == "C")⟩

/-- A world where every instrument's data collection and preprocessing
succeed, fitting fails for `"A"` (a caught `TrainingError`), deployment
fails for `"C"`, and `"B"` trains a candidate of validation loss `0.01`
and accuracy `55`. -/
def envC3 : Retrain.Env :=
  ⟨fun _ => some 0,
   fun _ raw => some (raw, 5),
   fun s _ => if s = "A" then none else some (0, ⟨1/100, 55⟩),
   fun _ => true,
   fun s => !(s == "C")⟩

/-- An empty production state: no models, no backups, no pruning runs yet. -/
def stW : Retrain.PipelineState := ⟨fun _ => ⟨none, none, none⟩, [], 0⟩

/-- Configuration for the single-instrument rejection run. -/
def cfgC2 : Config := ⟨["BTC-USD"], 45, 3/20, 30⟩

/-- A world whose candidate (loss `0.02`, accuracy `58`) will be rejected
against the incumbent of `stC2`, and whose preprocessing produces the
scaler token `99`. -/
def envC2 : Retrain.Env :=
  ⟨fun _ => some 0,
   fun _ _ => some (0, 99),
   fun _ _ => some (2, ⟨1/50, 58⟩),
   fun _ => true,
   fun _ => true⟩

/-- A production state holding an incumbent (loss `0.01`, accuracy `60`)
with model token `1` and scaler token `7`. -/
def stC2 : Retrain.PipelineState :=
  ⟨fun _ => ⟨some 1, some ⟨1/100, 60⟩, some 7⟩, [], 0⟩

/-- A production state whose model file exists but whose metrics file is
missing. -/
def stC10 : Retrain.PipelineState :=
  ⟨fun _ => ⟨some 5, none, some 7⟩, [], 0⟩

/-- 51 bars of a well-behaved market series: closes alternate between 4 and
5 (so every 14-bar RSI window sees both gains and losses), each bar's range
is `close ± 1`, volume constantly 1. -/
def exBarsUniform : List Feat.Bar :=
  (List.range 51).map (fun r =>
    let c : ℚ := if r % 2 = 0 then 4 else 5
    ⟨c, c + 1, c - 1, c, 1⟩)

/-- The same series, except that bar 49 is a degenerate doji with
`High = Low = Close` — a perfectly valid OHLCV bar. -/
def exBarsDoji : List Feat.Bar :=
  (List.range 51).map (fun r =>
    let c : ℚ := if r % 2 = 0 then 4 else 5
    if r = 49 then ⟨c, c, c, c, 1⟩ else ⟨c, c + 1, c - 1, c, 1⟩)

/-! # Theorems -/

/-! ## C1 — the comparator's four-step acceptance policy -/

/-- C1 counterexample: the claim's final case ("in all remaining cases it
returns True") fails at a representable input: with an incumbent whose
recorded validation loss is `0` and a candidate meeting the accuracy floor,
`compare_models` raises `ZeroDivisionError` (modelled `none`) instead of
returning a boolean. -/
theorem compare_models_zero_loss_counterexample :
    compare_models (some ⟨0, 60⟩) ⟨1/50, 58⟩ cfgW = none ∧
    compare_models (some ⟨0, 60⟩) ⟨1/50, 58⟩ cfgW ≠ some true := by
  constructor
  · rfl
  · intro h
    exact nomatch h

/-- C1 (amended: incumbent validation loss nonzero): `compare_models` is the
claimed pure decision — no incumbent → accept; candidate accuracy below
`minimum_accuracy` → reject regardless of losses; relative loss increase
above `validation_threshold` → reject; otherwise accept. -/
theorem compare_models_policy (config : Config) (cand : Metrics) (o : Metrics)
    (hz : o.val_loss ≠ 0) :
    compare_models none cand config = some true ∧
    (cand.val_accuracy < config.minimum_accuracy →
      compare_models (some o) cand config = some false) ∧
    (¬ cand.val_accuracy < config.minimum_accuracy →
      ((cand.val_loss - o.val_loss) / o.val_loss > config.validation_threshold →
        compare_models (some o) cand config = some false) ∧
      (¬ (cand.val_loss - o.val_loss) / o.val_loss > config.validation_threshold →
        compare_models (some o) cand config = some true)) := by
  refine ⟨rfl, fun h => ?_, fun h => ⟨fun h2 => ?_, fun h2 => ?_⟩⟩ <;>
    simp [compare_models, h, hz, *]

/-- C1 witness: the policy applied to a concrete incumbent and candidate
(a 100% loss increase against a 15% threshold, rejected). -/
theorem compare_models_policy_witness :
    compare_models (some ⟨1/100, 60⟩) ⟨1/50, 58⟩ cfgW = some false ∧
    compare_models none ⟨1/50, 58⟩ cfgW = some true :=
  ⟨((compare_models_policy cfgW ⟨1/50, 58⟩ ⟨1/100, 60⟩ (by norm_num)).2.2
      (by norm_num [cfgW])).1 (by norm_num [cfgW]),
   (compare_models_policy cfgW ⟨1/50, 58⟩ ⟨1/100, 60⟩ (by norm_num)).1⟩

/-! ## C4 / C5 — the sequence builder -/

/-- C4: both sequence builders produce exactly `L - W` sequences from a
matrix of length `L` and window length `W ≤ L`, and the `i`-th sequence's
window is rows `matrix[i : i+W]`. -/
theorem create_sequences_window_spec (data : List (List ℚ)) (target : List ℚ)
    (W : ℕ) (hW : W ≤ data.length) :
    (Seq.create_sequences data target W).1.length = data.length - W ∧
    (Seq.create_sequences_lstm data target W).1.length = data.length - W ∧
    ∀ i < data.length - W,
      (Seq.create_sequences data target W).1.getD i [] = (data.drop i).take W ∧
      (Seq.create_sequences_lstm data target W).1.getD i [] =
        (data.drop i).take W := by
  refine ⟨by simp [Seq.create_sequences], by simp [Seq.create_sequences_lstm], ?_⟩
  intro i hi
  constructor <;>
  · simp only [Seq.create_sequences, Seq.create_sequences_lstm]
    rw [List.getD_eq_getElem _ _ (by simpa using hi), List.getElem_map,
      List.getElem_range']
    simp [Nat.add_sub_cancel_left]

/-- C4 witness: three rows, window length two — one sequence, whose window
is the first two rows. -/
theorem create_sequences_window_spec_witness :
    (Seq.create_sequences [[1], [2], [3]] [10, 20, 15] 2).1.length = 1 ∧
    (Seq.create_sequences [[1], [2], [3]] [10, 20, 15] 2).1.getD 0 [] =
      [[1], [2]] :=
  ⟨(create_sequences_window_spec [[1], [2], [3]] [10, 20, 15] 2 (by norm_num)).1,
   ((create_sequences_window_spec [[1], [2], [3]] [10, 20, 15] 2
      (by norm_num)).2.2 0 (by norm_num)).1⟩

/-- C5: the `i`-th label is derived from the target pair
`(target[i+W-1], target[i+W])`: the regression builder emits `target[i+W]`
itself, the classification builder the direction of the comparison. -/
theorem create_sequences_label_spec (data : List (List ℚ)) (target : List ℚ)
    (W : ℕ) (hW : W ≤ data.length) :
    ∀ i < data.length - W,
      (Seq.create_sequences data target W).2.getD i 0 =
        target.getD (i + W) 0 ∧
      (Seq.create_sequences_lstm data target W).2.getD i 0 =
        (if target.getD (i + W - 1) 0 < target.getD (i + W) 0 then 1 else 0) := by
  intro i hi
  constructor <;>
  · simp only [Seq.create_sequences, Seq.create_sequences_lstm]
    rw [List.getD_eq_getElem _ _ (by simpa using hi), List.getElem_map,
      List.getElem_range']
    simp [Nat.add_comm]

/-- C5 witness: with targets `[10, 20, 15]` and `W = 2`, the single
regression label is `15 = target[2]` and the single classification label is
`0` (since `target[1] = 20 > 15 = target[2]`). -/
theorem create_sequences_label_spec_witness :
    (Seq.create_sequences [[1], [2], [3]] [10, 20, 15] 2).2.getD 0 0 = 15 ∧
    (Seq.create_sequences_lstm [[1], [2], [3]] [10, 20, 15] 2).2.getD 0 0 = 0 := by
  have h := create_sequences_label_spec [[1], [2], [3]] [10, 20, 15] 2
    (by norm_num) 0 (by norm_num)
  refine ⟨h.1.trans (by norm_num), h.2.trans (by norm_num)⟩

/-! ## C8 / C10 — backing up the production artifact -/

/-- C8: when the production model weights file is absent,
`backup_current_model` changes nothing — no backup directory, no copies —
and still returns `True`. -/
theorem backup_no_model (env : Retrain.Env) (now : ℤ) (s : Retrain.Symbol)
    (st : Retrain.PipelineState) (h : (st.prod s).model = none) :
    Retrain.backup_current_model env now s st = (true, st) := by
  simp [Retrain.backup_current_model, h]

/-- C8 witness: backing up on an empty production state is a successful
no-op. -/
theorem backup_no_model_witness :
    Retrain.backup_current_model envW 0 "X" stW = (true, stW) :=
  backup_no_model envW 0 "X" stW rfl

/-- C10: when the production model file exists (and no copy fails), backup
succeeds and the new backup directory holds exactly the production files
that exist — possibly fewer than three, which is not a failure. -/
theorem backup_partial_artifact (env : Retrain.Env) (now : ℤ)
    (s : Retrain.Symbol) (st : Retrain.PipelineState) (m : ℕ)
    (hm : (st.prod s).model = some m) (hok : env.backupOk s = true) :
    Retrain.backup_current_model env now s st =
      (true, { st with backups :=
        ⟨now, some m, (st.prod s).metrics, (st.prod s).scaler⟩ :: st.backups }) ∧
    ((st.prod s).metrics = none ∨ (st.prod s).scaler = none →
      (⟨now, some m, (st.prod s).metrics, (st.prod s).scaler⟩ :
        Retrain.BackupEntry).numFiles < 3) := by
  constructor
  · simp [Retrain.backup_current_model, hm, hok]
  · intro hmiss
    rcases hmiss with h | h <;>
      cases hsc : (st.prod s).scaler <;> cases hme : (st.prod s).metrics <;>
        simp_all [Retrain.BackupEntry.numFiles]

/-- C10 witness: a production slot with a model and a scaler but no metrics
file backs up successfully into a two-file backup directory. -/
theorem backup_partial_artifact_witness :
    Retrain.backup_current_model envW 0 "X" stC10 =
      (true, { stC10 with backups := [⟨0, some 5, none, some 7⟩] }) ∧
    (⟨0, some 5, none, some 7⟩ : Retrain.BackupEntry).numFiles = 2 := by
  have h := backup_partial_artifact envW 0 "X" stC10 5 rfl rfl
  exact ⟨h.1, rfl⟩

/-! ## C9 — directional accuracy -/

/-- `np.diff` has one element fewer than its input. -/
theorem diffList_length (xs : List ℚ) :
    (Acc.diffList xs).length = xs.length - 1 := by
  simp [Acc.diffList, List.length_zip, List.length_tail]

/-- `np.diff` written index-wise. -/
theorem diffList_eq_range (xs : List ℚ) :
    Acc.diffList xs = (List.range (xs.length - 1)).map
      (fun i => xs.getD (i + 1) 0 - xs.getD i 0) := by
  apply List.ext_getElem
  · simp [diffList_length]
  · intro n h1 h2
    have hn : n < xs.length - 1 := by simpa [diffList_length] using h1
    have hz : n < (xs.zip xs.tail).length := by
      simpa [Acc.diffList] using h1
    have hx : n < xs.length := lt_of_lt_of_le hn (Nat.sub_le _ _)
    have hx1 : n + 1 < xs.length := by omega
    simp only [Acc.diffList, List.getElem_map, List.getElem_zip,
      List.getElem_range, List.getElem_tail]
    rw [List.getD_eq_getElem _ _ hx1, List.getD_eq_getElem _ _ hx]

/-- Booleans agree under `==` exactly when the decided propositions are
equivalent. -/
theorem beq_decide_eq (P Q : Prop) [Decidable P] [Decidable Q] :
    (decide P == decide Q) = decide (P ↔ Q) := by
  by_cases hP : P <;> by_cases hQ : Q <;> simp [hP, hQ]

/-- C9: on equal-length series, `calculate_directional_accuracy` returns
`0.0` whenever the input has fewer than two elements, and otherwise `100`
times the fraction of consecutive steps at which the sign of the true step
agrees with the sign of the predicted step. -/
theorem directional_accuracy_spec (y_true y_pred : List ℚ)
    (hlen : y_true.length = y_pred.length) :
    (y_true.length < 2 →
      Acc.calculate_directional_accuracy y_true y_pred = 0) ∧
    (2 ≤ y_true.length →
      Acc.calculate_directional_accuracy y_true y_pred =
        100 * (Acc.agreeCount y_true y_pred : ℚ) /
          ((y_true.length - 1 : ℕ) : ℚ)) := by
  constructor
  · intro h
    simp [Acc.calculate_directional_accuracy, h]
  · intro h
    have hnl : ¬ y_true.length < 2 := by omega
    simp only [Acc.calculate_directional_accuracy, if_neg hnl]
    rw [diffList_eq_range y_true, diffList_eq_range y_pred, ← hlen]
    rw [List.map_map, List.map_map, List.zipWith_map_left, List.zipWith_map_right,
      List.zipWith_same]
    simp only [Function.comp, beq_decide_eq]
    rw [Acc.agreeCount]
    have hc : (List.countP
        (fun i => decide ((0 < y_true.getD (i + 1) 0 - y_true.getD i 0) ↔
          (0 < y_pred.getD (i + 1) 0 - y_pred.getD i 0)))
        (List.range (y_true.length - 1))) =
        (List.countP id (List.map
          (fun i => decide ((0 < y_true.getD (i + 1) 0 - y_true.getD i 0) ↔
            (0 < y_pred.getD (i + 1) 0 - y_pred.getD i 0)))
          (List.range (y_true.length - 1)))) := by
      rw [List.countP_map]
      exact List.countP_congr (fun x _ => by simp)
    rw [← hc, List.length_map, List.length_range]
    ring

/-- C9 witness: `y_true = [1, 2, 1]`, `y_pred = [1, 3, 5]` — the first step
agrees, the second does not — gives `50`; a one-element input gives `0`. -/
theorem directional_accuracy_spec_witness :
    Acc.calculate_directional_accuracy [1, 2, 1] [1, 3, 5] = 50 ∧
    Acc.calculate_directional_accuracy [5] [7] = 0 := by
  have h2 := (directional_accuracy_spec [1, 2, 1] [1, 3, 5] rfl).2 (by norm_num)
  have h1 := (directional_accuracy_spec [5] [7] rfl).1 (by norm_num)
  have hcount : Acc.agreeCount [1, 2, 1] [1, 3, 5] = 1 := by
    with_unfolding_all decide
  refine ⟨h2.trans ?_, h1⟩
  rw [hcount]
  norm_num

/-! ## C7 — pruning old backup directories -/

/-- The removal loop of `cleanup_old_backups` keeps exactly the entries its
body decides not to remove. -/
theorem cleanup_eq_filter (now : ℤ) (retention : ℕ) (l : List Prune.Entry) :
    Prune.cleanup_old_backups now retention l =
      l.filter (fun e => !Prune.shouldRemove now retention e) := by
  induction l with
  | nil => rfl
  | cons e rest ih =>
    by_cases h : Prune.shouldRemove now retention e <;>
      simp [Prune.cleanup_old_backups, List.filter_cons, h, ih]

/-- C7: a backup subdirectory whose name's 8-character prefix parses (as
CPython's `strptime('%Y%m%d')` does) to a date strictly before
`now - backup_retention_days` is removed; one whose date is within the
window is retained; one whose prefix does not parse is retained. -/
theorem cleanup_old_backups_spec (now : ℤ) (retention : ℕ)
    (entries : List Prune.Entry) (e : Prune.Entry)
    (he : e ∈ entries) (hd : e.isDir = true) :
    (∀ ymd, Prune.parseYmd (e.name.take 8) = some ymd →
      (Prune.dateSeconds ymd < now - 86400 * (retention : ℤ) →
        e ∉ Prune.cleanup_old_backups now retention entries) ∧
      (¬ Prune.dateSeconds ymd < now - 86400 * (retention : ℤ) →
        e ∈ Prune.cleanup_old_backups now retention entries)) ∧
    (Prune.parseYmd (e.name.take 8) = none →
      e ∈ Prune.cleanup_old_backups now retention entries) := by
  rw [cleanup_eq_filter]
  constructor
  · intro ymd hp
    constructor
    · intro hold hmem
      rw [List.mem_filter] at hmem
      have : Prune.shouldRemove now retention e = true := by
        simp [Prune.shouldRemove, hd, hp, hold]
      simp [this] at hmem
    · intro hnew
      rw [List.mem_filter]
      refine ⟨he, ?_⟩
      simp [Prune.shouldRemove, hd, hp, hnew]
  · intro hp
    rw [List.mem_filter]
    refine ⟨he, ?_⟩
    simp [Prune.shouldRemove, hd, hp]

/-- C7 witness: with `now` at day 19400 (seconds) and 30-day retention,
the directory `20230101_120000` (day 19358) is pruned and the directory
`no_date_here` is retained; with `now` at day 19360 the same dated
directory is within the window and retained. -/
theorem cleanup_old_backups_spec_witness :
    (⟨"20230101_120000", true⟩ : Prune.Entry) ∉
      Prune.cleanup_old_backups (86400 * 19400) 30
        [⟨"20230101_120000", true⟩, ⟨"no_date_here", true⟩] ∧
    (⟨"no_date_here", true⟩ : Prune.Entry) ∈
      Prune.cleanup_old_backups (86400 * 19400) 30
        [⟨"20230101_120000", true⟩, ⟨"no_date_here", true⟩] ∧
    (⟨"20230101_120000", true⟩ : Prune.Entry) ∈
      Prune.cleanup_old_backups (86400 * 19360) 30
        [⟨"20230101_120000", true⟩] := by
  refine ⟨((cleanup_old_backups_spec (86400 * 19400) 30 _ _ (by decide) rfl).1
      (2023, 1, 1) (by decide)).1 (by decide),
    (cleanup_old_backups_spec (86400 * 19400) 30 _ _ (by decide) rfl).2
      (by decide),
    ((cleanup_old_backups_spec (86400 * 19360) 30 _ _ (by decide) rfl).1
      (2023, 1, 1) (by decide)).2 (by decide)⟩

/-! ## C2 — rejection leaves the incumbent in place -/

/-- `train_new_model` touches neither the backups, nor the pruning count,
nor any production model-weights or metrics file (its only side effect is
the scaler dump of `preprocess_data`). -/
theorem train_new_model_frame (env : Retrain.Env) (s : Retrain.Symbol)
    (st : Retrain.PipelineState) :
    (Retrain.train_new_model env s st).2.backups = st.backups ∧
    (Retrain.train_new_model env s st).2.cleanupRuns = st.cleanupRuns ∧
    ∀ s',
      ((Retrain.train_new_model env s st).2.prod s').model =
        (st.prod s').model ∧
      ((Retrain.train_new_model env s st).2.prod s').metrics =
        (st.prod s').metrics := by
  unfold Retrain.train_new_model
  cases hc : env.collect s with
  | none => simp
  | some raw =>
    cases hp : env.preprocess s raw with
    | none => simp [hp]
    | some pr =>
      obtain ⟨features, scaler⟩ := pr
      cases hf : env.fitEval s features with
      | none =>
        refine ⟨by simp [hp, hf, Retrain.writeScaler],
          by simp [hp, hf, Retrain.writeScaler], fun s' => ?_⟩
        by_cases h : s' = s <;> simp [hp, hf, Retrain.writeScaler, h]
      | some q =>
        refine ⟨by simp [hp, hf, Retrain.writeScaler],
          by simp [hp, hf, Retrain.writeScaler], fun s' => ?_⟩
        by_cases h : s' = s <;> simp [hp, hf, Retrain.writeScaler, h]

/-- C2 (amended: the model-weights and metrics files): when the comparator
rejects the candidate, `retrain_symbol` returns `False` without calling
`backup_current_model` or `deploy_model` — no backup directory is created,
the pruning count is untouched, and the incumbent's model-weights and
metrics files are unchanged.  (The production scaler file is *not* covered:
`preprocess_data` has already overwritten it during training, before the
comparison — see the counterexample.) -/
theorem retrain_symbol_rejection (env : Retrain.Env) (config : Config)
    (now : ℤ) (s : Retrain.Symbol) (st : Retrain.PipelineState)
    (art : Retrain.Artifact) (st1 : Retrain.PipelineState)
    (htrain : Retrain.train_new_model env s st = (some (some art), st1))
    (hcmp : compare_models ((st.prod s).metrics) art.metrics config =
      some false) :
    Retrain.retrain_symbol env config now s st = some (false, st1) ∧
    st1.backups = st.backups ∧
    (st1.prod s).model = (st.prod s).model ∧
    (st1.prod s).metrics = (st.prod s).metrics ∧
    st1.cleanupRuns = st.cleanupRuns := by
  have hf := train_new_model_frame env s st
  rw [htrain] at hf
  refine ⟨?_, hf.1, (hf.2.2 s).1, (hf.2.2 s).2, hf.2.1⟩
  simp only [Retrain.retrain_symbol, htrain, hcmp]

/-- C2 witness: the spec's end-to-end rejection scenario — incumbent
`{val_loss: 0.01, val_accuracy: 60}`, candidate `{val_loss: 0.02,
val_accuracy: 58}`, threshold `0.15`: the candidate is rejected, no backup
directory is created, and the incumbent model and metrics survive. -/
theorem retrain_symbol_rejection_witness :
    (Retrain.retrain_symbol envC2 cfgC2 0 "BTC-USD" stC2).map Prod.fst =
      some false ∧
    (Retrain.retrain_symbol envC2 cfgC2 0 "BTC-USD" stC2).map
      (fun q => q.2.backups) = some [] ∧
    (Retrain.retrain_symbol envC2 cfgC2 0 "BTC-USD" stC2).map
      (fun q => (q.2.prod "BTC-USD").model) = some (some 1) := by
  have h := retrain_symbol_rejection envC2 cfgC2 0 "BTC-USD" stC2
    ⟨2, ⟨1/50, 58⟩, 99⟩ (Retrain.train_new_model envC2 "BTC-USD" stC2).2
    (Prod.ext rfl rfl) (by with_unfolding_all decide)
  rw [h.1]
  exact ⟨rfl, congrArg some (h.2.1.trans rfl),
    congrArg some ((h.2.2.1).trans rfl)⟩

/-- C2 counterexample: in the same rejection scenario, the incumbent's
*scaler* file has already been replaced by the candidate's scaler (token
`99` instead of the incumbent's `7`) when `retrain_symbol` returns `False`:
the claim that all three production files are unchanged fails. -/
theorem retrain_symbol_rejection_counterexample :
    (Retrain.retrain_symbol envC2 cfgC2 0 "BTC-USD" stC2).map Prod.fst =
      some false ∧
    (Retrain.retrain_symbol envC2 cfgC2 0 "BTC-USD" stC2).map
      (fun q => (q.2.prod "BTC-USD").scaler) = some (some 99) ∧
    (stC2.prod "BTC-USD").scaler = some 7 := by
  with_unfolding_all decide

/-! ## C3 — per-instrument failure isolation in the full pipeline -/

/-- `compare_models` returns a boolean whenever the incumbent's recorded
loss (if any) is nonzero. -/
theorem compare_models_ne_none (old_metrics : Option Metrics)
    (new_metrics : Metrics) (config : Config)
    (h : ∀ o, old_metrics = some o → o.val_loss ≠ 0) :
    compare_models old_metrics new_metrics config ≠ none := by
  cases old_metrics with
  | none => simp [compare_models]
  | some o =>
    have ho := h o rfl
    simp only [compare_models]
    split_ifs <;> simp_all

/-- A good state stays good when only a scaler file is rewritten. -/
theorem GoodState_writeScaler (st : Retrain.PipelineState)
    (s : Retrain.Symbol) (sc : ℕ) (hS : Retrain.GoodState st) :
    Retrain.GoodState (Retrain.writeScaler st s sc) := by
  intro s' m hm
  apply hS s' m
  by_cases h : s' = s <;> simpa [Retrain.writeScaler, h] using hm

/-- Goodness of a state only depends on its production files. -/
theorem GoodState_of_prod_eq (st st' : Retrain.PipelineState)
    (h : st'.prod = st.prod) (hS : Retrain.GoodState st) :
    Retrain.GoodState st' := by
  intro s m hm
  exact hS s m (by rw [← h]; exact hm)

/-- `backup_current_model` returns some boolean and never touches the
production files or the pruning counter. -/
theorem backup_current_model_spec (env : Retrain.Env) (now : ℤ)
    (s : Retrain.Symbol) (st : Retrain.PipelineState) :
    ∃ ok st1, Retrain.backup_current_model env now s st = (ok, st1) ∧
      st1.prod = st.prod ∧ st1.cleanupRuns = st.cleanupRuns := by
  cases hm : (st.prod s).model with
  | none => exact ⟨true, st, by simp [Retrain.backup_current_model, hm], rfl, rfl⟩
  | some m =>
    cases hb : env.backupOk s with
    | false =>
      exact ⟨false, st, by simp [Retrain.backup_current_model, hm, hb], rfl, rfl⟩
    | true =>
      exact ⟨true, { st with backups :=
          ⟨now, some m, (st.prod s).metrics, (st.prod s).scaler⟩ :: st.backups },
        by simp [Retrain.backup_current_model, hm, hb], rfl, rfl⟩

/-- `retrain_symbol` under a good environment and state, for a symbol whose
data collection and preprocessing succeed (otherwise its tuple unpacking
raises — see `runSymbols_crash`): it returns a boolean outcome, preserves
state goodness and the pruning counter, and the outcome is `False`
whenever fitting (the caught `None, None, None` case) or deployment
fails. -/
theorem retrain_symbol_total (env : Retrain.Env) (config : Config) (now : ℤ)
    (s : Retrain.Symbol) (st : Retrain.PipelineState)
    (hE : Retrain.GoodEnv env) (hS : Retrain.GoodState st)
    (hdata : ((env.collect s).bind (env.preprocess s)).isSome) :
    ∃ b st1, Retrain.retrain_symbol env config now s st = some (b, st1) ∧
      Retrain.GoodState st1 ∧ st1.cleanupRuns = st.cleanupRuns ∧
      (Retrain.trainResult env s = none → b = false) ∧
      (env.deployOk s = false → b = false) := by
  cases hc : env.collect s with
  | none => simp [hc] at hdata
  | some raw =>
    cases hp : env.preprocess s raw with
    | none => simp [hc, hp] at hdata
    | some pr =>
      obtain ⟨features, scaler⟩ := pr
      have hSw := GoodState_writeScaler st s scaler hS
      cases hf : env.fitEval s features with
      | none =>
        exact ⟨false, Retrain.writeScaler st s scaler,
          by simp [Retrain.retrain_symbol, Retrain.train_new_model, hc, hp, hf],
          hSw, rfl, fun _ => rfl, fun _ => rfl⟩
      | some q =>
        obtain ⟨model, metrics⟩ := q
        have hmz : metrics.val_loss ≠ 0 := hE s features model metrics hf
        have htr : Retrain.trainResult env s =
            some ⟨model, metrics, scaler⟩ := by
          simp [Retrain.trainResult, hc, hp, hf]
        have hcm := compare_models_ne_none (st.prod s).metrics metrics config
          (fun o ho => hS s o ho)
        cases hcmp : compare_models (st.prod s).metrics metrics config with
        | none => exact absurd hcmp hcm
        | some bcmp =>
          cases bcmp with
          | false =>
            exact ⟨false, Retrain.writeScaler st s scaler,
              by simp [Retrain.retrain_symbol, Retrain.train_new_model,
                hc, hp, hf, hcmp],
              hSw, rfl, fun _ => rfl, fun _ => rfl⟩
          | true =>
            obtain ⟨ok2, st2, hb2, hprod2, hcr2⟩ :=
              backup_current_model_spec env now s (Retrain.writeScaler st s scaler)
            have hS2 : Retrain.GoodState st2 :=
              GoodState_of_prod_eq _ _ hprod2 hSw
            have hwprod : (Retrain.writeScaler st s scaler).cleanupRuns =
                st.cleanupRuns := rfl
            cases ok2 with
            | false =>
              exact ⟨false, st2,
                by simp [Retrain.retrain_symbol, Retrain.train_new_model,
                  hc, hp, hf, hcmp, hb2],
                hS2, hcr2.trans hwprod, fun _ => rfl, fun _ => rfl⟩
            | true =>
              cases hd : env.deployOk s with
              | false =>
                exact ⟨false, st2,
                  by simp [Retrain.retrain_symbol, Retrain.train_new_model,
                    hc, hp, hf, hcmp, hb2, Retrain.deploy_model, hd],
                  hS2, hcr2.trans hwprod, fun _ => rfl, fun _ => rfl⟩
              | true =>
                refine ⟨true, { st2 with prod := fun s' => if s' = s then
                    ⟨some model, some metrics, some scaler⟩ else st2.prod s' },
                  by simp [Retrain.retrain_symbol, Retrain.train_new_model,
                    hc, hp, hf, hcmp, hb2, Retrain.deploy_model, hd],
                  ?_, hcr2.trans hwprod, ?_, ?_⟩
                · intro s' m hm
                  by_cases h : s' = s
                  · simp [h] at hm
                    exact hm ▸ hmz
                  · simp [h] at hm
                    exact hS2 s' m hm
                · intro hno
                  rw [htr] at hno
                  cases hno
                · intro hdf
                  exact hdf

/-- The per-symbol loop of the orchestrator under a good environment, when
every symbol's data collection and preprocessing succeed: it produces one
boolean outcome per configured symbol in order, leaves the pruning counter
alone, preserves state goodness, and reports `False` for every symbol
whose fitting or deployment failed. -/
theorem runSymbols_spec (env : Retrain.Env) (config : Config) (now : ℤ)
    (hE : Retrain.GoodEnv env) :
    ∀ (syms : List Retrain.Symbol) (st : Retrain.PipelineState),
      Retrain.GoodState st →
      (∀ s ∈ syms, ((env.collect s).bind (env.preprocess s)).isSome) →
      ∃ res st', Retrain.runSymbols env config now syms st = some (res, st') ∧
        res.map Prod.fst = syms ∧ st'.cleanupRuns = st.cleanupRuns ∧
        Retrain.GoodState st' ∧
        ∀ p ∈ res, (Retrain.trainResult env p.1 = none → p.2 = false) ∧
          (env.deployOk p.1 = false → p.2 = false) := by
  intro syms
  induction syms with
  | nil =>
    intro st hS _
    exact ⟨[], st, rfl, rfl, rfl, hS, by simp⟩
  | cons s rest ih =>
    intro st hS hData
    obtain ⟨b, st1, hstep, hS1, hcr1, himp1, himp2⟩ :=
      retrain_symbol_total env config now s st hE hS
        (hData s (List.mem_cons_self s rest))
    obtain ⟨res, st', hrest, hmap, hcr, hS', himps⟩ :=
      ih st1 hS1 (fun s' hs' => hData s' (List.mem_cons_of_mem s hs'))
    refine ⟨(s, b) :: res, st', ?_, by simp [hmap], hcr.trans hcr1, hS', ?_⟩
    · simp [Retrain.runSymbols, hstep, hrest]
    · intro p hp
      rcases List.mem_cons.1 hp with hp | hp
      · cases hp
        exact ⟨himp1, himp2⟩
      · exact himps p hp

/-- A single bare-`None` training return — a data-collection or
preprocessing failure for any symbol of the list — aborts the whole loop:
the 3-tuple unpacking in `retrain_symbol` raises a `TypeError` nothing
catches. -/
theorem runSymbols_crash (env : Retrain.Env) (config : Config) (now : ℤ) :
    ∀ (syms : List Retrain.Symbol) (st : Retrain.PipelineState)
      (s : Retrain.Symbol), s ∈ syms →
      (env.collect s).bind (env.preprocess s) = none →
      Retrain.runSymbols env config now syms st = none := by
  intro syms
  induction syms with
  | nil =>
    intro st s hs _
    cases hs
  | cons hd rest ih =>
    intro st s hs hfail
    rcases List.mem_cons.1 hs with rfl | hs'
    · have htn : Retrain.train_new_model env s st = (none, st) := by
        cases hc : env.collect s with
        | none => simp [Retrain.train_new_model, hc]
        | some raw =>
          have hp : env.preprocess s raw = none := by simpa [hc] using hfail
          simp [Retrain.train_new_model, hc, hp]
      simp [Retrain.runSymbols, Retrain.retrain_symbol, htn]
    · cases hr : Retrain.retrain_symbol env config now hd st with
      | none => simp [Retrain.runSymbols, hr]
      | some p =>
        obtain ⟨b, st1⟩ := p
        simp [Retrain.runSymbols, hr, ih st1 s hs' hfail]

/-- C3 (amended: only training and deployment errors are isolated): under a
duplicate-free symbol list, a good initial state and an environment whose
trained metrics never record a zero loss —
* when every configured instrument's data collection and preprocessing
  succeed, the run completes: fitting and deployment errors are downgraded
  to a `False` outcome for their instrument, every instrument is attempted
  in order, the report lists every configured instrument with a boolean
  outcome, and backup pruning runs exactly once per run;
* but a data-collection or preprocessing failure for any configured
  instrument makes `train_new_model` return a bare `None`, whose unpacking
  in `retrain_symbol` raises an uncaught `TypeError` that aborts the whole
  run — no report, no pruning, later instruments never attempted. -/
theorem run_full_pipeline_spec (env : Retrain.Env) (config : Config)
    (now : ℤ) (st : Retrain.PipelineState) (hnd : config.symbols.Nodup)
    (hE : Retrain.GoodEnv env) (hS : Retrain.GoodState st) :
    ((∀ s ∈ config.symbols, ((env.collect s).bind (env.preprocess s)).isSome) →
      ∃ rep st', Retrain.run_full_pipeline env config now st =
          some (rep, st') ∧
        rep.results.map Prod.fst = config.symbols ∧
        rep.total_symbols = config.symbols.length ∧
        st'.cleanupRuns = st.cleanupRuns + 1 ∧
        ∀ p ∈ rep.results,
          (Retrain.trainResult env p.1 = none → p.2 = false) ∧
          (env.deployOk p.1 = false → p.2 = false)) ∧
    (∀ s ∈ config.symbols, (env.collect s).bind (env.preprocess s) = none →
      Retrain.run_full_pipeline env config now st = none) := by
  constructor
  · intro hData
    obtain ⟨res, st1, hrun, hmap, hcr, hS1, himps⟩ :=
      runSymbols_spec env config now hE config.symbols st hS hData
    refine ⟨⟨res.length, (res.filter (fun p => p.2)).length, res⟩,
      Retrain.cleanup_old_backups config now st1, ?_, hmap, ?_, ?_, himps⟩
    · simp [Retrain.run_full_pipeline, hrun]
    · rw [← hmap, List.length_map]
    · simp [Retrain.cleanup_old_backups, hcr]
  · intro s hs hfail
    simp [Retrain.run_full_pipeline,
      runSymbols_crash env config now config.symbols st s hs hfail]

/-- C3 witness: with collection and preprocessing succeeding everywhere,
fitting failing for `"A"` and deployment failing for `"C"`, the
three-instrument run completes, reports all three instruments and prunes
backups exactly once; and in the world where data collection itself fails
for `"A"`, the same run aborts. -/
theorem run_full_pipeline_spec_witness :
    (∃ rep st', Retrain.run_full_pipeline envC3 cfgW 0 stW =
        some (rep, st') ∧
      rep.results.map Prod.fst = ["A", "B", "C"] ∧
      st'.cleanupRuns = 1) ∧
    Retrain.run_full_pipeline envW cfgW 0 stW = none := by
  have hSW : Retrain.GoodState stW := fun s m h => nomatch h
  constructor
  · obtain ⟨rep, st', hrun, hmap, _, hcr, _⟩ :=
      (run_full_pipeline_spec envC3 cfgW 0 stW (by decide)
        (fun s f m met h => by
          by_cases hA : s = "A"
          · simp [envC3, hA] at h
          · simp [envC3, hA] at h
            obtain ⟨h1, h2⟩ := h
            subst h2
            norm_num)
        hSW).1 (by decide)
    exact ⟨rep, st', hrun, hmap, hcr⟩
  · exact (run_full_pipeline_spec envW cfgW 0 stW (by decide)
      (fun s f m met h => by
        simp [envW] at h
        obtain ⟨h1, h2⟩ := h
        subst h2
        norm_num)
      hSW).2 "A" (by decide) rfl

/-- C3 counterexample: a data-collection failure for one instrument aborts
the entire run instead of being recorded as that instrument's `False`
outcome: with `envW.collect "A" = none` and `"A"` configured,
`train_new_model` returns a bare `None` (line 231 of the source), the
3-tuple unpacking in `retrain_symbol` raises `TypeError`, nothing catches
it, and `run_full_pipeline` produces no report and never prunes. -/
theorem run_full_pipeline_crash_counterexample :
    Retrain.run_full_pipeline envW cfgW 0 stW = none ∧
    envW.collect "A" = none ∧ "A" ∈ cfgW.symbols := by
  refine ⟨?_, rfl, by decide⟩
  with_unfolding_all rfl

/-! ## C6 — the feature pipeline's row count -/

/-- Counting the indices of `range n` from `k` on. -/
theorem length_filter_range (n k : ℕ) :
    ((List.range n).filter (fun r => decide (k ≤ r))).length = n - k := by
  induction n with
  | zero => simp
  | succ n ih =>
    rw [List.range_succ, List.filter_append, List.length_append, ih]
    by_cases h : k ≤ n
    · simp only [List.filter_cons, List.filter_nil, decide_eq_true h, if_pos]
      simp only [List.length_cons, List.length_nil]
      omega
    · simp only [List.filter_cons, List.filter_nil]
      rw [if_neg (by simpa using h)]
      simp only [List.length_nil]
      omega

/-- The dataframe row at a valid index is one of the input bars. -/
theorem barAt_mem (bars : List Feat.Bar) (r : ℕ) (hr : r < bars.length) :
    bars.getD r default ∈ bars := by
  rw [List.getD_eq_getElem _ _ hr]
  exact List.getElem_mem hr

/-- A full-window rolling mean of a total series is defined. -/
theorem rollingMean_isSome (f : ℕ → ℚ) (w r : ℕ) (h : w ≤ r + 1) :
    (Feat.rollingMean f w r).isSome := by
  simp [Feat.rollingMean, h]

/-- A rolling mean is undefined during its warm-up. -/
theorem rollingMean_eq_none (f : ℕ → ℚ) (w r : ℕ) (h : ¬ w ≤ r + 1) :
    Feat.rollingMean f w r = none := by
  simp [Feat.rollingMean, h]

/-- `returns` is defined from row 1 on when closes are nonzero. -/
theorem returnsAt_isSome (bars : List Feat.Bar)
    (hC : ∀ b ∈ bars, b.close ≠ 0) (r : ℕ) (hr : r < bars.length)
    (h1 : 1 ≤ r) : (Feat.returnsAt bars r).isSome := by
  have hne : Feat.closeAt bars (r - 1) ≠ 0 :=
    hC _ (barAt_mem bars (r - 1) (by omega))
  simp [Feat.returnsAt, h1, hne]

/-- `volatility` is defined from row 20 on when closes are nonzero. -/
theorem volatilityAt_isSome (bars : List Feat.Bar)
    (hC : ∀ b ∈ bars, b.close ≠ 0) (r : ℕ) (hr : r < bars.length)
    (h20 : 20 ≤ r) : (Feat.volatilityAt bars r).isSome := by
  have hwd : Feat.windowDefined (Feat.returnsAt bars) 20 r = true := by
    simp only [Feat.windowDefined, Bool.and_eq_true, decide_eq_true_eq,
      List.all_eq_true]
    refine ⟨by omega, fun i hi => ?_⟩
    have hi20 : i < 20 := List.mem_range.1 hi
    exact returnsAt_isSome bars hC (r + 1 - 20 + i) (by omega) (by omega)
  simp [Feat.volatilityAt, Feat.rollingStd, hwd]

/-- `rsi` is defined from row 13 on when the rolling loss mean is nonzero. -/
theorem rsiAt_isSome (bars : List Feat.Bar) (r : ℕ) (h13 : 13 ≤ r)
    (hloss : (∑ i ∈ Finset.range 14, Feat.lossAt bars (r + 1 - 14 + i)) ≠ 0) :
    (Feat.rsiAt bars r).isSome := by
  have h14 : 14 ≤ r + 1 := by omega
  have hdiv : (∑ i ∈ Finset.range 14, Feat.lossAt bars (r + 1 - 14 + i)) /
      (14 : ℚ) ≠ 0 := div_ne_zero hloss (by norm_num)
  have he : r + 1 - 14 = r - 13 := by omega
  rw [he] at hdiv
  simp [Feat.rsiAt, Feat.gainMeanAt, Feat.lossMeanAt, Feat.rollingMean, h14,
    hdiv]

/-- `price_position` is defined on a bar with `High ≠ Low`. -/
theorem pricePositionAt_isSome (bars : List Feat.Bar) (r : ℕ)
    (h : Feat.highAt bars r ≠ Feat.lowAt bars r) :
    (Feat.pricePositionAt bars r).isSome := by
  simp [Feat.pricePositionAt, Feat.optDiv, sub_ne_zero.mpr h]

/-- `volume_ratio` is defined from row 19 on when the rolling volume mean
is nonzero. -/
theorem volumeRatioAt_isSome (bars : List Feat.Bar) (r : ℕ) (h19 : 19 ≤ r)
    (hv : (∑ i ∈ Finset.range 20, Feat.volumeAt bars (r + 1 - 20 + i)) ≠ 0) :
    (Feat.volumeRatioAt bars r).isSome := by
  have h20 : 20 ≤ r + 1 := by omega
  have hdiv : (∑ i ∈ Finset.range 20, Feat.volumeAt bars (r + 1 - 20 + i)) /
      (20 : ℚ) ≠ 0 := div_ne_zero hv (by norm_num)
  have he : r + 1 - 20 = r - 19 := by omega
  rw [he] at hdiv
  simp [Feat.volumeRatioAt, Feat.volumeMaAt, Feat.rollingMean, h20,
    Feat.optDiv, hdiv]

/-- Under the no-degenerate-bars hypotheses, a row survives `dropna` exactly
when it is past the 49-row warm-up of the 50-day moving average. -/
theorem rowDefined_iff (bars : List Feat.Bar)
    (hC : ∀ b ∈ bars, b.close ≠ 0) (hO : ∀ b ∈ bars, b.openP ≠ 0)
    (hLo : ∀ b ∈ bars, b.low ≠ 0) (hHL : ∀ b ∈ bars, b.high ≠ b.low)
    (hRSI : ∀ r < bars.length, 49 ≤ r →
      (∑ i ∈ Finset.range 14, Feat.lossAt bars (r + 1 - 14 + i)) ≠ 0)
    (hVol : ∀ r < bars.length, 49 ≤ r →
      (∑ i ∈ Finset.range 20, Feat.volumeAt bars (r + 1 - 20 + i)) ≠ 0)
    (r : ℕ) (hr : r < bars.length) :
    Feat.rowDefined bars r = decide (49 ≤ r) := by
  by_cases h49 : 49 ≤ r
  · have hmem := barAt_mem bars r hr
    have h1 := returnsAt_isSome bars hC r hr (by omega)
    have h2 := volatilityAt_isSome bars hC r hr (by omega)
    have h3 := rsiAt_isSome bars r (by omega) (hRSI r hr h49)
    have h4 : (Feat.ma20At bars r).isSome :=
      rollingMean_isSome _ 20 r (by omega)
    have h5 : (Feat.ma50At bars r).isSome :=
      rollingMean_isSome _ 50 r (by omega)
    have h6 := pricePositionAt_isSome bars r (hHL _ hmem)
    have h7 : (Feat.volumeMaAt bars r).isSome :=
      rollingMean_isSome _ 20 r (by omega)
    have h8 := volumeRatioAt_isSome bars r (by omega) (hVol r hr h49)
    have h9 : (Feat.highLowRatioAt bars r).isSome := by
      have hlow : Feat.lowAt bars r ≠ 0 := hLo _ hmem
      simp [Feat.highLowRatioAt, Feat.optDiv, hlow]
    have h10 : (Feat.closeOpenRatioAt bars r).isSome := by
      have hop : Feat.openAt bars r ≠ 0 := hO _ hmem
      simp [Feat.closeOpenRatioAt, Feat.optDiv, hop]
    simp [Feat.rowDefined, h1, h2, h3, h4, h5, h6, h7, h8, h9, h10, h49]
  · have h5 : Feat.ma50At bars r = none :=
      rollingMean_eq_none _ 50 r (by omega)
    simp [Feat.rowDefined, h5, h49]

/-- C6 (amended: no degenerate bars): when every bar has a nonzero close,
open and low and a nonempty range (`High ≠ Low`), and the rolling RSI-loss
and volume means past the warm-up are nonzero, `preprocess_data` keeps
exactly the rows past the fixed 49-row warm-up: both the scaled feature
matrix and the returned target series have `input length - 49` rows
(strictly fewer than the input when it is nonempty), and every surviving
row has all ten engineered features defined. -/
theorem preprocess_data_rowcount (bars : List Feat.Bar)
    (hC : ∀ b ∈ bars, b.close ≠ 0) (hO : ∀ b ∈ bars, b.openP ≠ 0)
    (hLo : ∀ b ∈ bars, b.low ≠ 0) (hHL : ∀ b ∈ bars, b.high ≠ b.low)
    (hRSI : ∀ r < bars.length, 49 ≤ r →
      (∑ i ∈ Finset.range 14, Feat.lossAt bars (r + 1 - 14 + i)) ≠ 0)
    (hVol : ∀ r < bars.length, 49 ≤ r →
      (∑ i ∈ Finset.range 20, Feat.volumeAt bars (r + 1 - 20 + i)) ≠ 0) :
    (Feat.preprocess_data bars).1.length = bars.length - 49 ∧
    (Feat.preprocess_data bars).2.length = bars.length - 49 ∧
    (0 < bars.length →
      (Feat.preprocess_data bars).1.length < bars.length) ∧
    (∀ r ∈ Feat.keptRows bars, 49 ≤ r ∧ Feat.rowDefined bars r = true) := by
  have hkept : Feat.keptRows bars =
      (List.range bars.length).filter (fun r => decide (49 ≤ r)) :=
    List.filter_congr (fun r hrmem =>
      rowDefined_iff bars hC hO hLo hHL hRSI hVol r (List.mem_range.1 hrmem))
  have hlen : (Feat.keptRows bars).length = bars.length - 49 := by
    rw [hkept, length_filter_range]
  have h1 : (Feat.preprocess_data bars).1.length = bars.length - 49 := by
    simp [Feat.preprocess_data, Feat.minMaxScale, Feat.featuresMatrix, hlen]
  refine ⟨h1, by simp [Feat.preprocess_data, hlen], fun hpos => ?_, ?_⟩
  · rw [h1]
    omega
  · intro r hrk
    have hd : Feat.rowDefined bars r = true := (List.mem_filter.1 hrk).2
    have h49 : 49 ≤ r := by
      rw [hkept] at hrk
      simpa using (List.mem_filter.1 hrk).2
    exact ⟨h49, hd⟩

/-- C6 witness: the 51-bar well-behaved series keeps exactly
`51 - 49 = 2` rows. -/
theorem preprocess_data_rowcount_witness :
    (Feat.preprocess_data exBarsUniform).1.length = 2 ∧
    exBarsUniform.length = 51 := by
  have h := preprocess_data_rowcount exBarsUniform
    (by with_unfolding_all decide) (by with_unfolding_all decide)
    (by with_unfolding_all decide) (by with_unfolding_all decide)
    (by with_unfolding_all decide) (by with_unfolding_all decide)
  have hl : exBarsUniform.length = 51 := by with_unfolding_all decide
  exact ⟨h.1.trans (by rw [hl]), hl⟩

/-- C6 counterexample: the claim's fixed warm-up fails on a valid market
series.  The well-behaved 51-bar series keeps `51 - 49` rows, but the same
series with one degenerate (`High = Low = Close`) bar at index 49 — still a
valid OHLCV series — keeps one row fewer: `price_position` is `0/0 = NaN`
there, so `dropna` removes a row beyond the warm-up. -/
theorem preprocess_data_rowcount_counterexample :
    (Feat.preprocess_data exBarsUniform).1.length =
      exBarsUniform.length - 49 ∧
    (Feat.preprocess_data exBarsDoji).1.length ≠ exBarsDoji.length - 49 ∧
    exBarsDoji.length = exBarsUniform.length := by
  refine ⟨?_, ?_, ?_⟩ <;> with_unfolding_all decide

end Wintrades
